import Mathlib

/-!
Verification of `announce_completion.py`, a platform-dispatch wrapper around
external text-to-speech commands.

The embedding models the script's observable behaviour:

* `Env` supplies what the script reads from its surroundings: the value of
  `platform.system()` and, for every `subprocess.run` invocation, the
  outcome of that invocation (`RunResult`).
* `Effects` records what the script does: the lines it prints to standard
  output and the `subprocess.run` calls it makes.
* Python exceptions are modelled by `PyExc`; since every call in the script
  uses `check=True`, a non-zero exit raises `CalledProcessError`, a missing
  executable raises `FileNotFoundError`, and anything else is a generic
  exception.
* `tryBlock` is the body of the outer `try:`; `announce_completion` wraps it
  with the two `except` clauses of the source (first `CalledProcessError`,
  then `Exception`, which in this model catches everything else).
-/

/-- Outcome of one `subprocess.run(..., check=True)` invocation, supplied by
the environment. -/
inductive RunResult where
  | success : RunResult
  | nonZeroExit : Nat → RunResult
  | notFound : RunResult
  | otherError : String → RunResult
deriving DecidableEq, Repr

/-- One call to `subprocess.run`: the argument list and the `shell=` flag. -/
structure SpawnCall where
  args : List String
  shell : Bool
deriving DecidableEq, Repr

/-- The environment the script runs in: the detected platform string and the
behaviour of each external command invocation. -/
structure Env where
  system : String
  run : SpawnCall → RunResult

/-- Python exceptions that can arise in the script.  All of them are
subclasses of `Exception`, so the source's final `except Exception` clause
catches any of them. -/
inductive PyExc where
  | calledProcessError : List String → Nat → PyExc
  | fileNotFoundError : List String → PyExc
  | otherError : String → PyExc
deriving DecidableEq, Repr

/-- Rendering of `str(e)` for an exception, used by the `f"...: {e}"`
prints.  No claim depends on the exact text, only on the fixed prefixes of
the printed lines, so the rendering is kept simple. -/
def pyStr : PyExc → String
  | .calledProcessError args code =>
      "Command " ++ toString args ++ " returned non-zero exit status "
        ++ toString code ++ "."
  | .fileNotFoundError args =>
      "No such file or directory: " ++ args.headD ""
  | .otherError s => s

/-- The exception raised (if any) by `subprocess.run(c.args, shell=c.shell,
check=True)` given the invocation's outcome. -/
def runExc (c : SpawnCall) : RunResult → Option PyExc
  | .success => none
  | .nonZeroExit code => some (.calledProcessError c.args code)
  | .notFound => some (.fileNotFoundError c.args)
  | .otherError s => some (.otherError s)

/-- The printed output and the `subprocess.run` calls made by a run of the
script. -/
structure Effects where
  output : List String
  runCalls : List SpawnCall
deriving DecidableEq, Repr

/-- `subprocess.run(['say', message], check=True)` (macOS branch). -/
def sayCall (message : String) : SpawnCall := ⟨["say", message], false⟩

/-- The PowerShell script text built by the f-string in the Windows branch:
the message is interpolated directly into the script body. -/
def windowsScript (message : String) : String :=
  "Add-Type -AssemblyName System.Speech; $speak = New-Object System.Speech.Synthesis.SpeechSynthesizer; $speak.Speak(\"" ++ message ++ "\")"

/-- `subprocess.run(['powershell', '-Command', f'...'], check=True)`
(Windows branch). -/
def powershellCall (message : String) : SpawnCall :=
  ⟨["powershell", "-Command", windowsScript message], false⟩

/-- `subprocess.run(['espeak', message], check=True)` (Linux primary). -/
def espeakCall (message : String) : SpawnCall := ⟨["espeak", message], false⟩

/-- `subprocess.run(['echo', message, '|', 'festival', '--tts'], shell=True,
check=True)` (Linux fallback). -/
def fallbackCall (message : String) : SpawnCall :=
  ⟨["echo", message, "|", "festival", "--tts"], true⟩

/-- Modelled from the Python `subprocess` documentation (standard-library
semantics, not repository code): on POSIX, when `shell=True` and the
arguments are given as a list, only `args[0]` is the command string executed
by the shell (as `/bin/sh -c args[0]`); every further list item becomes an
additional argument to the shell itself and is not part of the executed
command. -/
def posixShellCommand (c : SpawnCall) : Option String :=
  if c.shell then c.args.head? else none

/-- The body of the outer `try:` of `announce_completion`: platform dispatch,
including the inner `try/except FileNotFoundError` of the Linux branch.
Returns the effects accumulated so far together with the exception (if any)
escaping the block. -/
def tryBlock (env : Env) (message : String) : Effects × Option PyExc :=
  if env.system = "Darwin" then
    let c := sayCall message
    (⟨[], [c]⟩, runExc c (env.run c))
  else if env.system = "Windows" then
    let c := powershellCall message
    (⟨[], [c]⟩, runExc c (env.run c))
  else if env.system = "Linux" then
    let c := espeakCall message
    match env.run c with
    | .notFound =>
      let c2 := fallbackCall message
      (⟨[], [c, c2]⟩, runExc c2 (env.run c2))
    | r => (⟨[], [c]⟩, runExc c r)
  else
    (⟨["Unsupported system: " ++ env.system, "Message: " ++ message], []⟩,
      none)

/-- `announce_completion(message)`: the `try:` body wrapped in the source's
two handlers, `except subprocess.CalledProcessError` and then
`except Exception`.  Every exception the body can raise is caught, so the
function is total and returns the accumulated effects. -/
def announce_completion (env : Env) (message : String) : Effects :=
  match tryBlock env message with
  | (eff, none) => eff
  | (eff, some (.calledProcessError args code)) =>
      ⟨eff.output ++
        ["Error running text-to-speech: " ++ pyStr (.calledProcessError args code),
         "Message: " ++ message],
       eff.runCalls⟩
  | (eff, some e) =>
      ⟨eff.output ++ ["Unexpected error: " ++ pyStr e, "Message: " ++ message],
       eff.runCalls⟩

/-- The fixed default message of the `__main__` block. -/
def defaultMessage : String := "Barber Buddy development milestone completed!"

/-- The message passed to `announce_completion` by the `__main__` block:
`" ".join(sys.argv[1:])` when `len(sys.argv) > 1`, the default otherwise.
`argv` is the full `sys.argv`, program name included. -/
def mainMessage (argv : List String) : String :=
  if argv.length > 1 then String.intercalate " " (argv.drop 1)
  else defaultMessage

/-- The whole script run: the `__main__` block calling
`announce_completion`. -/
def mainRun (env : Env) (argv : List String) : Effects :=
  announce_completion env (mainMessage argv)

/-- Spec-side notion of "concatenated with single spaces", defined
independently of `String.intercalate` to compare against `mainMessage`. -/
def joinSpaces : List String → String
  | [] => ""
  | [s] => s
  | s :: rest => s ++ " " ++ joinSpaces (rest)

/-- The lines appended by the two `except` handlers for a given escaping
exception (none when the body completed without raising). -/
def handlerLines (message : String) : Option PyExc → List String
  | none => []
  | some (.calledProcessError args code) =>
      ["Error running text-to-speech: " ++ pyStr (.calledProcessError args code),
       "Message: " ++ message]
  | some e => ["Unexpected error: " ++ pyStr e, "Message: " ++ message]

theorem announce_eq (env : Env) (m : String) :
    announce_completion env m =
      ⟨(tryBlock env m).1.output ++ handlerLines m (tryBlock env m).2,
       (tryBlock env m).1.runCalls⟩ := by
  unfold announce_completion
  rcases htb : tryBlock env m with ⟨eff, exc⟩
  cases exc with
  | none => simp [handlerLines]
  | some e => cases e <;> rfl

theorem tryBlock_darwin (env : Env) (m : String) (h : env.system = "Darwin") :
    tryBlock env m = (⟨[], [sayCall m]⟩, runExc (sayCall m) (env.run (sayCall m))) := by
  simp [tryBlock, h]

theorem tryBlock_windows (env : Env) (m : String) (h : env.system = "Windows") :
    tryBlock env m =
      (⟨[], [powershellCall m]⟩, runExc (powershellCall m) (env.run (powershellCall m))) := by
  simp [tryBlock, h]

theorem tryBlock_linux (env : Env) (m : String) (h : env.system = "Linux") :
    tryBlock env m =
      match env.run (espeakCall m) with
      | .notFound =>
        (⟨[], [espeakCall m, fallbackCall m]⟩,
          runExc (fallbackCall m) (env.run (fallbackCall m)))
      | r => (⟨[], [espeakCall m]⟩, runExc (espeakCall m) r) := by
  simp [tryBlock, h]

theorem tryBlock_other (env : Env) (m : String) (h1 : env.system ≠ "Darwin")
    (h2 : env.system ≠ "Windows") (h3 : env.system ≠ "Linux") :
    tryBlock env m =
      (⟨["Unsupported system: " ++ env.system, "Message: " ++ m], []⟩, none) := by
  simp [tryBlock, h1, h2, h3]

/-- Claim C1: for every input message and platform branch, any exception the
body of `announce_completion` raises is caught by a handler that prints a
diagnostic line and the original message to standard output, after which the
function returns normally (it returns the accumulated `Effects` value; no
exception escapes). -/
theorem announce_completion_catches_all_failures (env : Env) (m : String)
    (eff : Effects) (e : PyExc) (h : tryBlock env m = (eff, some e)) :
    ∃ err, announce_completion env m =
      ⟨eff.output ++ [err, "Message: " ++ m], eff.runCalls⟩ := by
  rw [announce_eq, h]
  cases e <;> exact ⟨_, rfl⟩

theorem announce_completion_catches_all_failures_witness :
    ∃ err,
      announce_completion ⟨"Darwin", fun _ => RunResult.nonZeroExit 1⟩ "hi" =
        ⟨(⟨[], [sayCall "hi"]⟩ : Effects).output ++ [err, "Message: " ++ "hi"],
         (⟨[], [sayCall "hi"]⟩ : Effects).runCalls⟩ :=
  announce_completion_catches_all_failures
    ⟨"Darwin", fun _ => RunResult.nonZeroExit 1⟩ "hi"
    ⟨[], [sayCall "hi"]⟩ (.calledProcessError ["say", "hi"] 1) (by decide)

/-- Claim C5, counterexample: with platform `"FreeBSD"` and message `"Hi"`,
no process is spawned, but the printed output is not exactly the platform
string and the message: the two printed lines carry the prefixes
`"Unsupported system: "` and `"Message: "`. -/
theorem unrecognized_platform_output_not_exact :
    (announce_completion ⟨"FreeBSD", fun _ => RunResult.success⟩ "Hi").runCalls = [] ∧
    (announce_completion ⟨"FreeBSD", fun _ => RunResult.success⟩ "Hi").output =
      ["Unsupported system: FreeBSD", "Message: Hi"] ∧
    (announce_completion ⟨"FreeBSD", fun _ => RunResult.success⟩ "Hi").output ≠
      ["FreeBSD", "Hi"] := by
  refine ⟨by decide, by decide, by decide⟩

/-- Claim C5, amended: for every unrecognized platform value (not Darwin,
Windows, or Linux), no `subprocess.run` call is made and the printed output
is exactly the two lines `"Unsupported system: " ++ platform` and
`"Message: " ++ message`, which contain the platform label and the message
respectively. -/
theorem unrecognized_platform_prints_labelled_lines (env : Env) (m : String)
    (h1 : env.system ≠ "Darwin") (h2 : env.system ≠ "Windows")
    (h3 : env.system ≠ "Linux") :
    (announce_completion env m).runCalls = [] ∧
    (announce_completion env m).output =
      ["Unsupported system: " ++ env.system, "Message: " ++ m] := by
  rw [announce_eq, tryBlock_other env m h1 h2 h3]
  exact ⟨rfl, rfl⟩

theorem unrecognized_platform_prints_labelled_lines_witness :
    (announce_completion ⟨"FreeBSD", fun _ => RunResult.success⟩ "Hi").runCalls = [] ∧
    (announce_completion ⟨"FreeBSD", fun _ => RunResult.success⟩ "Hi").output =
      ["Unsupported system: " ++ "FreeBSD", "Message: " ++ "Hi"] :=
  unrecognized_platform_prints_labelled_lines
    ⟨"FreeBSD", fun _ => RunResult.success⟩ "Hi" (by decide) (by decide) (by decide)

/-- Claim C6: on any recognized platform, when every external command
invocation succeeds (exit status 0), the program prints nothing to standard
output. -/
theorem recognized_platform_success_silent (env : Env) (m : String)
    (hrec : env.system = "Darwin" ∨ env.system = "Windows" ∨ env.system = "Linux")
    (hok : ∀ c, env.run c = RunResult.success) :
    (announce_completion env m).output = [] := by
  rcases hrec with h | h | h
  · rw [announce_eq, tryBlock_darwin env m h, hok]
    rfl
  · rw [announce_eq, tryBlock_windows env m h, hok]
    rfl
  · rw [announce_eq, tryBlock_linux env m h, hok]
    rfl

theorem recognized_platform_success_silent_witness :
    (announce_completion ⟨"Darwin", fun _ => RunResult.success⟩ "Build done").output = [] :=
  recognized_platform_success_silent ⟨"Darwin", fun _ => RunResult.success⟩
    "Build done" (Or.inl rfl) (fun _ => rfl)

/-- Claim C3: whenever some `subprocess.run` call made by the script exits
with a non-zero status, the line `"Message: " ++ message` is among the
printed output, so the original message text appears verbatim. -/
theorem nonzero_exit_prints_original_message (env : Env) (m : String)
    (h : ∃ c ∈ (announce_completion env m).runCalls,
      ∃ k, env.run c = RunResult.nonZeroExit k) :
    ("Message: " ++ m) ∈ (announce_completion env m).output := by
  obtain ⟨c, hc, k, hk⟩ := h
  rw [announce_eq] at hc ⊢
  by_cases hD : env.system = "Darwin"
  · rw [tryBlock_darwin env m hD] at hc ⊢
    cases hr : env.run (sayCall m) <;>
      simp only [hr, runExc, handlerLines] at hc ⊢ <;> try simp
    simp only [List.mem_singleton] at hc
    subst hc
    rw [hk] at hr
    cases hr
  · by_cases hW : env.system = "Windows"
    · rw [tryBlock_windows env m hW] at hc ⊢
      cases hr : env.run (powershellCall m) <;>
        simp only [hr, runExc, handlerLines] at hc ⊢ <;> try simp
      simp only [List.mem_singleton] at hc
      subst hc
      rw [hk] at hr
      cases hr
    · by_cases hL : env.system = "Linux"
      · rw [tryBlock_linux env m hL] at hc ⊢
        cases hr : env.run (espeakCall m) <;>
          simp only [hr, runExc, handlerLines] at hc ⊢ <;> try simp
        · simp only [List.mem_singleton] at hc
          subst hc
          rw [hk] at hr
          cases hr
        · cases hr2 : env.run (fallbackCall m) with
          | success =>
            exfalso
            simp only [List.mem_cons, List.not_mem_nil, or_false] at hc
            rcases hc with hc | hc <;> subst hc
            · rw [hk] at hr
              cases hr
            · rw [hk] at hr2
              cases hr2
          | nonZeroExit k2 => simp [hr2, runExc, handlerLines]
          | notFound => simp [hr2, runExc, handlerLines]
          | otherError s => simp [hr2, runExc, handlerLines]
      · rw [tryBlock_other env m hD hW hL] at hc
        simp at hc

theorem nonzero_exit_prints_original_message_witness :
    ("Message: " ++ "hello") ∈
      (announce_completion ⟨"Darwin", fun _ => RunResult.nonZeroExit 1⟩ "hello").output :=
  nonzero_exit_prints_original_message
    ⟨"Darwin", fun _ => RunResult.nonZeroExit 1⟩ "hello"
    ⟨sayCall "hello", by decide, 1, rfl⟩

/-- Claim C4: on Linux, when the primary command `espeak` runs but exits
non-zero, the fallback is not invoked (the only `subprocess.run` call is the
`espeak` one) and the output contains a line carrying the prefix
`"Error running text-to-speech"` together with the original message line. -/
theorem linux_primary_nonzero_no_fallback (env : Env) (m : String) (k : Nat)
    (h : env.system = "Linux") (hr : env.run (espeakCall m) = RunResult.nonZeroExit k) :
    (announce_completion env m).runCalls = [espeakCall m] ∧
    (∃ r, ("Error running text-to-speech: " ++ r) ∈ (announce_completion env m).output) ∧
    ("Message: " ++ m) ∈ (announce_completion env m).output := by
  rw [announce_eq, tryBlock_linux env m h, hr]
  refine ⟨rfl, ⟨pyStr (.calledProcessError (espeakCall m).args k), ?_⟩, ?_⟩ <;>
    simp [runExc, handlerLines]

theorem linux_primary_nonzero_no_fallback_witness :
    (announce_completion ⟨"Linux", fun _ => RunResult.nonZeroExit 1⟩ "Tests passed").runCalls =
      [espeakCall "Tests passed"] ∧
    (∃ r, ("Error running text-to-speech: " ++ r) ∈
      (announce_completion ⟨"Linux", fun _ => RunResult.nonZeroExit 1⟩ "Tests passed").output) ∧
    ("Message: " ++ "Tests passed") ∈
      (announce_completion ⟨"Linux", fun _ => RunResult.nonZeroExit 1⟩ "Tests passed").output :=
  linux_primary_nonzero_no_fallback
    ⟨"Linux", fun _ => RunResult.nonZeroExit 1⟩ "Tests passed" 1 rfl rfl

/-- Claim C9: on Windows, the single `subprocess.run` call passes the
PowerShell script text as its third argument, and that script text is a
fixed script body with the raw message embedded directly as a literal
substring (no escaping). -/
theorem windows_script_embeds_message_literally (env : Env) (m : String)
    (h : env.system = "Windows") :
    (announce_completion env m).runCalls =
      [⟨["powershell", "-Command", windowsScript m], false⟩] ∧
    ∃ u v, windowsScript m = u ++ m ++ v := by
  constructor
  · rw [announce_eq, tryBlock_windows env m h]
    rfl
  · exact ⟨"Add-Type -AssemblyName System.Speech; $speak = New-Object System.Speech.Synthesis.SpeechSynthesizer; $speak.Speak(\"", "\")", rfl⟩

theorem windows_script_embeds_message_literally_witness :
    (announce_completion ⟨"Windows", fun _ => RunResult.success⟩ "Hi").runCalls =
      [⟨["powershell", "-Command", windowsScript "Hi"], false⟩] ∧
    ∃ u v, windowsScript "Hi" = u ++ "Hi" ++ v :=
  windows_script_embeds_message_literally
    ⟨"Windows", fun _ => RunResult.success⟩ "Hi" rfl

/-- Claim C10: on macOS or Windows, if the platform's speech executable is
absent (the spawn raises a not-found error), no fallback is attempted: the
script makes exactly one `subprocess.run` call, the generic handler prints
`"Unexpected error: "` with the exception followed by the original message,
and the function returns normally with exactly those two output lines. -/
theorem notfound_on_macos_windows_generic_handler (env : Env) (m : String)
    (h : (env.system = "Darwin" ∧ env.run (sayCall m) = RunResult.notFound) ∨
      (env.system = "Windows" ∧ env.run (powershellCall m) = RunResult.notFound)) :
    ∃ c, (announce_completion env m).runCalls = [c] ∧
      (announce_completion env m).output =
        ["Unexpected error: " ++ pyStr (.fileNotFoundError c.args),
         "Message: " ++ m] := by
  rcases h with ⟨hsys, hr⟩ | ⟨hsys, hr⟩
  · refine ⟨sayCall m, ?_⟩
    rw [announce_eq, tryBlock_darwin env m hsys, hr]
    exact ⟨rfl, rfl⟩
  · refine ⟨powershellCall m, ?_⟩
    rw [announce_eq, tryBlock_windows env m hsys, hr]
    exact ⟨rfl, rfl⟩

theorem notfound_on_macos_windows_generic_handler_witness :
    ∃ c,
      (announce_completion ⟨"Darwin", fun _ => RunResult.notFound⟩ "hi").runCalls = [c] ∧
      (announce_completion ⟨"Darwin", fun _ => RunResult.notFound⟩ "hi").output =
        ["Unexpected error: " ++ pyStr (.fileNotFoundError c.args), "Message: " ++ "hi"] :=
  notfound_on_macos_windows_generic_handler
    ⟨"Darwin", fun _ => RunResult.notFound⟩ "hi" (Or.inl ⟨rfl, rfl⟩)

/-- The tail of a separator-join: one separator before each element. -/
def sepTail (s : String) : List String → String
  | [] => ""
  | a :: as => s ++ a ++ sepTail s as

theorem intercalate_go_eq (s : String) (l : List String) :
    ∀ acc, String.intercalate.go acc s l = acc ++ sepTail s l := by
  induction l with
  | nil =>
    intro acc
    simp [String.intercalate.go, sepTail]
  | cons a as ih =>
    intro acc
    simp only [String.intercalate.go, sepTail]
    rw [ih]
    simp [String.append_assoc]

theorem joinSpaces_cons (a : String) (as : List String) :
    joinSpaces (a :: as) = a ++ sepTail " " as := by
  induction as generalizing a with
  | nil => simp [joinSpaces, sepTail]
  | cons b bs ih =>
    simp only [joinSpaces, sepTail]
    rw [ih]
    simp [String.append_assoc]

theorem intercalate_eq_joinSpaces (l : List String) :
    String.intercalate " " l = joinSpaces l := by
  cases l with
  | nil => rfl
  | cons a as =>
    simp only [String.intercalate]
    rw [intercalate_go_eq, joinSpaces_cons]

/-- Claim C7: with more than one entry in `sys.argv` (i.e. at least one
positional argument after the program name), the message built by the
`__main__` block is exactly the positional arguments concatenated with
single spaces, and that message is what is passed to
`announce_completion`. -/
theorem cli_args_joined_with_single_spaces (env : Env) (argv : List String)
    (h : argv.length > 1) :
    mainMessage argv = joinSpaces (argv.drop 1) ∧
    mainRun env argv = announce_completion env (joinSpaces (argv.drop 1)) := by
  unfold mainRun mainMessage
  rw [if_pos h, intercalate_eq_joinSpaces]
  exact ⟨rfl, rfl⟩

theorem cli_args_joined_with_single_spaces_witness :
    mainMessage ["announce_completion.py", "Build", "done"] =
      joinSpaces (["announce_completion.py", "Build", "done"].drop 1) ∧
    mainRun ⟨"Darwin", fun _ => RunResult.success⟩
        ["announce_completion.py", "Build", "done"] =
      announce_completion ⟨"Darwin", fun _ => RunResult.success⟩
        (joinSpaces (["announce_completion.py", "Build", "done"].drop 1)) :=
  cli_args_joined_with_single_spaces ⟨"Darwin", fun _ => RunResult.success⟩
    ["announce_completion.py", "Build", "done"] (by decide)

/-- Claim C8: with no positional command-line argument (`sys.argv` holds
only the program name, or is empty), `announce_completion` is called with
the fixed default milestone message, verbatim. -/
theorem no_cli_args_default_message (env : Env) (argv : List String)
    (h : argv.length ≤ 1) :
    mainRun env argv =
      announce_completion env "Barber Buddy development milestone completed!" := by
  unfold mainRun mainMessage
  rw [if_neg (by omega)]
  rfl

theorem no_cli_args_default_message_witness :
    mainRun ⟨"Darwin", fun _ => RunResult.success⟩ ["announce_completion.py"] =
      announce_completion ⟨"Darwin", fun _ => RunResult.success⟩
        "Barber Buddy development milestone completed!" :=
  no_cli_args_default_message ⟨"Darwin", fun _ => RunResult.success⟩
    ["announce_completion.py"] (by decide)

/-- Claim C2 (code bug): on Linux with `espeak` absent, the fallback
`subprocess.run` call is made with the same message in its argument list,
but because the arguments are a list while `shell=True`, the command string
the shell actually executes is only `args[0]`, i.e. `"echo"`: no pipeline is
formed and `festival` is never run, contradicting the intended fallback
documented by the source comment. -/
theorem linux_fallback_shell_runs_echo_only :
    (announce_completion
        ⟨"Linux",
         fun c => if c.args.head? = some "espeak" then RunResult.notFound
           else RunResult.success⟩
        "Tests passed").runCalls =
      [espeakCall "Tests passed", fallbackCall "Tests passed"] ∧
    (fallbackCall "Tests passed").args =
      ["echo", "Tests passed", "|", "festival", "--tts"] ∧
    (fallbackCall "Tests passed").shell = true ∧
    posixShellCommand (fallbackCall "Tests passed") = some "echo" := by
  refine ⟨by decide, by decide, by decide, by decide⟩
